import Mathlib

/-!
Verification of the options-strategy payoff and backtest engine
(`src/utils/strategyMath.ts`, `src/utils/backtest.ts`, and the absolute-price
payoff builder found in the unnamed sources).

Modelling conventions:
* JavaScript `number` values are modelled as `ℚ` (exact rationals).  Every `ℚ`
  is finite, so `Number.isFinite` guards are satisfied by construction; NaN is
  not modelled.
* Optional fields (`type?`, `strike?`) are `Option`s; `undefined` is `none`.
* `contractSize` is `Option ℚ`: `none` models an absent field, and JS
  truthiness (`contractSize || 100`) treats both `none` and `some 0` as falsy.
* `Number(x.toFixed(d))` is modelled by `roundDp d`: rounding to `d` decimal
  places, ties away from zero (ECMAScript `toFixed` strips the sign and picks
  the larger candidate on ties).
-/

namespace Op

inductive OptionType where
  | CALL
  | PUT
deriving DecidableEq, Repr

inductive Side where
  | BUY
  | SELL
deriving DecidableEq, Repr

inductive LegInstrument where
  | OPTION
  | UNDERLYING
deriving DecidableEq, Repr

/-- `StrategyLeg` from `src/types.ts` (fields the engine reads). -/
structure StrategyLeg where
  instrument : LegInstrument
  side : Side
  type : Option OptionType
  strike : Option ℚ
  premium : ℚ
  quantity : ℚ
  contractSize : Option ℚ
deriving DecidableEq, Repr

/-- JS `leg.contractSize || DEFAULT_CONTRACT_SIZE`: falsy (`undefined` or `0`)
falls back to the default `100`; any other number — including negatives — is
kept. -/
def contractSizeOrDefault (cs : Option ℚ) : ℚ :=
  match cs with
  | none => 100
  | some c => if c = 0 then 100 else c

/-- `calculateLegPayoff` from `src/utils/strategyMath.ts` lines 7–31. -/
def calculateLegPayoff (leg : StrategyLeg) (underlyingPrice : ℚ) : ℚ :=
  let multiplier := contractSizeOrDefault leg.contractSize
  match leg.instrument with
  | .UNDERLYING =>
    let move := underlyingPrice - leg.premium
    let pnl := match leg.side with
      | .BUY => move
      | .SELL => -move
    pnl * leg.quantity * multiplier
  | .OPTION =>
    match leg.type, leg.strike with
    | some t, some strike =>
      let pnl : ℚ := match t with
        | .CALL => max 0 (underlyingPrice - strike) - leg.premium
        | .PUT => max 0 (strike - underlyingPrice) - leg.premium
      let pnl := match leg.side with
        | .SELL => -pnl
        | .BUY => pnl
      pnl * leg.quantity * multiplier
    | _, _ => 0

/-- Reference definition of the leg payoff, written from the specification's
words: UNDERLYING pays `(p − premium)` for BUY and `(premium − p)` for SELL,
scaled by `quantity × contractSize`; an OPTION pays intrinsic value minus
premium (`max(0, p − strike)` for CALL, `max(0, strike − p)` for PUT), negated
for SELL, scaled by `quantity × contractSize`; an OPTION leg missing its type
or strike contributes zero. -/
def legPayoffSpec (leg : StrategyLeg) (p : ℚ) : ℚ :=
  let cs := contractSizeOrDefault leg.contractSize
  match leg.instrument with
  | .UNDERLYING =>
    (if leg.side = .BUY then p - leg.premium else leg.premium - p) * leg.quantity * cs
  | .OPTION =>
    match leg.type, leg.strike with
    | some .CALL, some k =>
      (if leg.side = .SELL then -1 else 1) * (max 0 (p - k) - leg.premium) * leg.quantity * cs
    | some .PUT, some k =>
      (if leg.side = .SELL then -1 else 1) * (max 0 (k - p) - leg.premium) * leg.quantity * cs
    | _, _ => 0

/-- ECMAScript rounding used by `Number(x.toFixed(dp))`: nearest integer,
ties away from zero (`toFixed` strips the sign, then picks the larger
candidate on ties). -/
def jsRound (q : ℚ) : ℤ :=
  if q < 0 then -⌊-q + 1 / 2⌋ else ⌊q + 1 / 2⌋

/-- `Number(x.toFixed(dp))`: round to `dp` decimal places. -/
def roundDp (dp : ℕ) (q : ℚ) : ℚ :=
  (jsRound (q * 10 ^ dp) : ℚ) / 10 ^ dp

/-- `PayoffData` from `src/types.ts`: one percentage-move sample. -/
structure PayoffData where
  movePct : ℚ
  profit : ℚ
deriving DecidableEq, Repr

/-- Sum of `calculateLegPayoff` over all legs at one hypothetical price (the
inner `for` loop shared by the curve builders). -/
def totalPayoff (legs : List StrategyLeg) (price : ℚ) : ℚ :=
  legs.foldl (fun acc leg => acc + calculateLegPayoff leg price) 0

/-- `generatePayoffData` from `src/utils/strategyMath.ts` lines 33–53: the
percentage-move sweep (±`PAYOFF_RANGE_PCT` = ±40, `PAYOFF_POINTS` = 320
intervals).  The `!Number.isFinite(currentPrice)` disjunct of the source's
guard cannot fire over `ℚ`. -/
def generatePayoffData (legs : List StrategyLeg) (currentPrice : ℚ) : List PayoffData :=
  if legs.length = 0 ∨ currentPrice ≤ 0 then []
  else
    let startPct : ℚ := -40
    let endPct : ℚ := 40
    let span := endPct - startPct
    let step := span / 320
    (List.range (320 + 1)).map fun i : ℕ =>
      let movePct := startPct + step * (i : ℚ)
      let price := currentPrice * (1 + movePct / 100)
      { movePct := roundDp 4 movePct, profit := roundDp 4 (totalPayoff legs price) }

/-- `PayoffData` as used by the absolute-price sweep in the unnamed source
(src/unnamed/part_004): an absolute price sample. -/
structure PricePayoffData where
  price : ℚ
  profit : ℚ
deriving DecidableEq, Repr

/-- JS `a || b` on (non-NaN) numbers: `0` is the only falsy value. -/
def jsOr (a b : ℚ) : ℚ := if a = 0 then b else a

/-- The `referencePoints` array built inside the absolute-price sweep
(src/unnamed/part_004 lines 1089–1100): the current price, the finite option
strikes and the finite underlying entry premiums, filtered to strictly
positive finite values. -/
def referencePoints (legs : List StrategyLeg) (currentPrice : ℚ) : List ℚ :=
  let optionStrikes :=
    (legs.filter fun leg => leg.instrument = .OPTION).filterMap fun leg => leg.strike
  let underlyingEntries :=
    (legs.filter fun leg => leg.instrument = .UNDERLYING).map fun leg => leg.premium
  (currentPrice :: (optionStrikes ++ underlyingEntries)).filter fun v => 0 < v

/-- `Math.min(...l)` for the nonempty lists the source applies it to. -/
def listMin : List ℚ → ℚ
  | [] => 0
  | x :: xs => xs.foldl min x

/-- `Math.max(...l)` for the nonempty lists the source applies it to. -/
def listMax : List ℚ → ℚ
  | [] => 0
  | x :: xs => xs.foldl max x

/-- `generatePayoffData` variant from src/unnamed/part_004 lines 1086–1126:
the absolute-price sweep over `[start, end]` derived from the reference
points, 320 intervals (321 samples). -/
def generatePayoffDataAbs (legs : List StrategyLeg) (currentPrice : ℚ) :
    List PricePayoffData :=
  if legs.length = 0 then []
  else
    let refs := referencePoints legs currentPrice
    if refs.length = 0 then []
    else
      let minStrike := listMin refs
      let maxStrike := listMax refs
      let range := maxStrike - minStrike
      let buffer := jsOr (range * (1 / 2)) (jsOr (maxStrike * (1 / 5)) 1)
      let start := max 0 (minStrike - buffer)
      let stop := maxStrike + buffer
      let points : ℕ := 320
      let span := stop - start
      let step := span / points
      (List.range (points + 1)).map fun i : ℕ =>
        let p := start + step * (i : ℚ)
        { price := roundDp 4 p, profit := roundDp 4 (totalPayoff legs p) }

/-- The `number | 'Unlimited'` tagged union of `StrategyStats`. -/
inductive NumOrUnlimited where
  | num (v : ℚ)
  | unlimited
deriving DecidableEq, Repr

/-- `StrategyStats` from `src/types.ts`. -/
structure StrategyStats where
  maxProfit : NumOrUnlimited
  maxLoss : NumOrUnlimited
  breakEvens : List ℚ
  netPremium : ℚ
  capitalAtRisk : Option ℚ
  maxProfitPct : Option ℚ
  maxLossPct : Option ℚ
  spotPnl : ℚ
deriving DecidableEq, Repr

/-- JS array read `xs[i] ?? d` with an integer index. -/
def jsGetD (l : List ℚ) (i : ℤ) (d : ℚ) : ℚ :=
  if i < 0 then d else l.getD i.toNat d

/-- The consecutive pairs `(payoffData[i], payoffData[i+1])` scanned by the
break-even loop. -/
def adjacentPairs (l : List PayoffData) : List (PayoffData × PayoffData) :=
  l.zip l.tail

/-- One iteration of the break-even `for` loop of `calculateStrategyStats`
(src/utils/strategyMath.ts lines 87–104): on a zero crossing, linearly
interpolate, round to 4 decimals, and insert unless the 4-decimal key was
already collected. -/
def breakEvenStep (acc : List ℚ) (pair : PayoffData × PayoffData) : List ℚ :=
  let left := pair.1
  let right := pair.2
  if (left.profit ≤ 0 ∧ 0 < right.profit) ∨ (0 ≤ left.profit ∧ right.profit < 0) then
    let delta := right.profit - left.profit
    let t := if delta ≠ 0 then (0 - left.profit) / delta else 0
    let movePct := left.movePct + t * (right.movePct - left.movePct)
    let rounded := roundDp 4 movePct
    if rounded ∈ acc then acc else acc ++ [rounded]
  else acc

/-- `calculateStrategyStats` from `src/utils/strategyMath.ts` lines 55–146. -/
def calculateStrategyStats (legs : List StrategyLeg) (payoffData : List PayoffData)
    (currentPrice : ℚ) : StrategyStats :=
  if payoffData.length = 0 then
    { maxProfit := .num 0, maxLoss := .num 0, breakEvens := [], netPremium := 0,
      capitalAtRisk := none, maxProfitPct := none, maxLossPct := none, spotPnl := 0 }
  else
    let profits := payoffData.map (·.profit)
    let minProfit := listMin profits
    let maxProfitVal := listMax profits
    let last := jsGetD profits ((profits.length : ℤ) - 1) 0
    let prev := jsGetD profits ((profits.length : ℤ) - 2) last
    let first := jsGetD profits 0 0
    let second := jsGetD profits 1 first
    let leftSlope := second - first
    let rightSlope := last - prev
    let isMaxProfitUnlimited := 0 < rightSlope ∧ 10000 < last
    let isMaxLossUnlimited :=
      (0 < leftSlope ∧ first < -10000) ∨ (rightSlope < 0 ∧ last < -10000)
    let breakEvens := ((adjacentPairs payoffData).foldl breakEvenStep []).mergeSort
    let netPremium := legs.foldl
      (fun acc leg =>
        let multiplier := contractSizeOrDefault leg.contractSize
        let legPremium := leg.premium * leg.quantity * multiplier
        acc + (if leg.side = .SELL then legPremium else -legPremium)) 0
    let spotPnl := legs.foldl (fun acc leg => acc + calculateLegPayoff leg currentPrice) 0
    let maxProfit := if isMaxProfitUnlimited then NumOrUnlimited.unlimited
      else .num maxProfitVal
    let maxLoss := if isMaxLossUnlimited then NumOrUnlimited.unlimited
      else .num |minProfit|
    let capitalAtRisk : Option ℚ :=
      if netPremium < 0 then some |netPremium|
      else
        match maxLoss with
        | .num v => some v
        | .unlimited => none
    let maxProfitPct : Option ℚ :=
      match maxProfit, capitalAtRisk with
      | .num mp, some car => if car ≠ 0 ∧ 0 < car then some (mp / car * 100) else none
      | _, _ => none
    let maxLossPct : Option ℚ :=
      match maxLoss, capitalAtRisk with
      | .num ml, some car => if car ≠ 0 ∧ 0 < car then some (-ml / car * 100) else none
      | _, _ => none
    { maxProfit := maxProfit, maxLoss := maxLoss, breakEvens := breakEvens,
      netPremium := netPremium, capitalAtRisk := capitalAtRisk,
      maxProfitPct := maxProfitPct, maxLossPct := maxLossPct, spotPnl := spotPnl }

/-- The crossing predicate of the break-even scan: a sign change between
consecutive samples, inclusive of an exact zero on the entering side. -/
def beCrosses (pr : PayoffData × PayoffData) : Prop :=
  (pr.1.profit ≤ 0 ∧ 0 < pr.2.profit) ∨ (0 ≤ pr.1.profit ∧ pr.2.profit < 0)

instance : DecidablePred beCrosses := fun pr => by unfold beCrosses; infer_instance

/-- The interpolated, 4-decimal-rounded break-even of one crossing pair, as
the specification words it: `leftMove + t × (rightMove − leftMove)` with
`t = (0 − leftProfit) / (rightProfit − leftProfit)`. -/
def beValue (pr : PayoffData × PayoffData) : ℚ :=
  roundDp 4 (pr.1.movePct +
    ((0 - pr.1.profit) / (pr.2.profit - pr.1.profit)) * (pr.2.movePct - pr.1.movePct))

/-- Break-even collection as the specification describes it: interpolate every
zero crossing of consecutive samples, round to 4 decimals, deduplicate at that
precision, sort ascending. -/
def breakEvensSpec (payoffData : List PayoffData) : List ℚ :=
  ((((adjacentPairs payoffData).filter fun pr => decide (beCrosses pr)).map beValue).dedup).mergeSort

lemma breakEvenStep_eq (acc : List ℚ) (pr : PayoffData × PayoffData) :
    breakEvenStep acc pr =
      if beCrosses pr then (if beValue pr ∈ acc then acc else acc ++ [beValue pr])
      else acc := by
  unfold breakEvenStep beCrosses beValue
  rcases pr with ⟨l, r⟩
  by_cases hc : (l.profit ≤ 0 ∧ 0 < r.profit) ∨ (0 ≤ l.profit ∧ r.profit < 0)
  · by_cases hd : r.profit - l.profit ≠ 0
    · simp [hc, hd]
    · rw [not_ne_iff] at hd
      simp [hc, hd]
  · simp [hc]

lemma mem_foldl_breakEvenStep (pairs : List (PayoffData × PayoffData)) (acc : List ℚ)
    (x : ℚ) :
    x ∈ pairs.foldl breakEvenStep acc ↔
      x ∈ acc ∨ x ∈ (pairs.filter fun pr => decide (beCrosses pr)).map beValue := by
  induction pairs generalizing acc with
  | nil => simp
  | cons pr rest ih =>
    rw [List.foldl_cons, ih, breakEvenStep_eq]
    by_cases hc : beCrosses pr
    · have hfilter : List.filter (fun q => decide (beCrosses q)) (pr :: rest)
          = pr :: List.filter (fun q => decide (beCrosses q)) rest := by
        simp [List.filter_cons, hc]
      rw [hfilter, List.map_cons, if_pos hc]
      by_cases hm : beValue pr ∈ acc
      · rw [if_pos hm]
        simp only [List.mem_cons]
        constructor
        · rintro (h | h)
          · exact Or.inl h
          · exact Or.inr (Or.inr h)
        · rintro (h | h | h)
          · exact Or.inl h
          · exact Or.inl (h ▸ hm)
          · exact Or.inr h
      · rw [if_neg hm]
        simp only [List.mem_cons, List.mem_append, List.mem_singleton]
        tauto
    · have hfilter : List.filter (fun q => decide (beCrosses q)) (pr :: rest)
          = List.filter (fun q => decide (beCrosses q)) rest := by
        simp [List.filter_cons, hc]
      rw [hfilter, if_neg hc]

lemma nodup_foldl_breakEvenStep (pairs : List (PayoffData × PayoffData)) (acc : List ℚ)
    (h : acc.Nodup) : (pairs.foldl breakEvenStep acc).Nodup := by
  induction pairs generalizing acc with
  | nil => simpa
  | cons pr rest ih =>
    rw [List.foldl_cons, breakEvenStep_eq]
    split_ifs with hc hm
    · exact ih _ h
    · exact ih _ (by simp [List.nodup_append, h, hm])
    · exact ih _ h

/-! ### Backtest engine (`src/utils/backtest.ts`) -/

/-- The projections of a JS `Date` the backtest reads (`getFullYear`,
`getMonth` — 0-based — and `getTime` in milliseconds). -/
structure JSDate where
  year : ℤ
  month : ℤ
  timeMs : ℤ
deriving DecidableEq, Repr

/-- `HistoryPoint` from `src/services/api` (src/unnamed/part_000 lines 7–11).
`returnPct : number | null`; the engine treats `null` and non-finite returns
identically, and a non-finite `ℚ` cannot exist, so both are `none`. -/
structure HistoryPoint where
  time : JSDate
  close : ℚ
  returnPct : Option ℚ
deriving DecidableEq, Repr

/-- `PayoffCurve` from `src/utils/backtest.ts` lines 8–12. -/
structure PayoffCurve where
  basePrice : ℚ
  variations : List ℚ
  curveReturns : List ℚ
deriving DecidableEq, Repr

inductive BacktestFrequency where
  | WEEKLY
  | MONTHLY
deriving DecidableEq, Repr

def WEEKLY_PERIODS_PER_MONTH : ℚ := 433 / 100

/-- `BacktestRow` from `src/utils/backtest.ts` lines 16–25. -/
structure BacktestRow where
  time : JSDate
  assetReturn : ℚ
  strategyReturn : ℚ
  profit : ℚ
  withdrawal : ℚ
  investment : ℚ
  capital : ℚ
  lossEvent : Bool
deriving DecidableEq, Repr

/-- One element of `chart.points`. -/
structure ChartPoint where
  time : ℤ
  assetReturn : ℚ
  strategyReturn : ℚ
  size : ℚ
deriving DecidableEq, Repr

/-- One element of `chart.equity`. -/
structure EquityPoint where
  time : ℤ
  capitalWith : ℚ
  capitalWithout : ℚ
deriving DecidableEq, Repr

/-- `BacktestMetrics` from `src/utils/backtest.ts` lines 27–39. -/
structure BacktestMetrics where
  initialCapital : ℚ
  finalCapitalNoWithdrawal : ℚ
  finalCapitalWithWithdrawal : ℚ
  totalProfitPct : ℚ
  avgMonthlyProfit : ℚ
  monthlyEquivalentRate : ℚ
  profitWithWithdrawalPct : ℚ
  monthlyRateWithWithdrawal : ℚ
  monthlyIrr : ℚ
  wins : ℕ
  losses : ℕ
deriving DecidableEq, Repr

/-- `BacktestResult` from `src/utils/backtest.ts` lines 41–56 (the `chart`
object flattened into its two arrays). -/
structure BacktestResult where
  rows : List BacktestRow
  chartPoints : List ChartPoint
  equity : List EquityPoint
  metrics : BacktestMetrics
deriving DecidableEq, Repr

/-- `calculateStrategyCost` from `src/utils/backtest.ts` lines 59–65. -/
def calculateStrategyCost (legs : List StrategyLeg) : ℚ :=
  legs.foldl
    (fun acc leg =>
      let multiplier := contractSizeOrDefault leg.contractSize
      let legPremium := leg.premium * leg.quantity * multiplier
      acc + (if leg.side = .SELL then legPremium else -legPremium)) 0

/-- `buildPayoffCurve` from `src/utils/backtest.ts` lines 67–93, with the
source's default arguments `rangePct = 0.3`, `points = 250`.  The
`!Number.isFinite(basePrice)` disjunct of the guard cannot fire over `ℚ`.
The single source loop pushing into `variations` and `returns` in lock-step
is rendered as two maps over the same index range. -/
def buildPayoffCurve (legs : List StrategyLeg) (basePrice : ℚ)
    (rangePct : ℚ := 3 / 10) (points : ℕ := 250) : PayoffCurve :=
  if legs.length = 0 ∨ basePrice ≤ 0 then
    { basePrice := basePrice, variations := [], curveReturns := [] }
  else
    let step := rangePct * 2 / (max 1 (points - 1) : ℕ)
    let variations := (List.range points).map fun i : ℕ =>
      roundDp 6 (-rangePct + step * (i : ℚ))
    let curveReturns := (List.range points).map fun i : ℕ =>
      roundDp 4 (totalPayoff legs (basePrice * (1 + (-rangePct + step * (i : ℚ)))))
    { basePrice := basePrice, variations := variations, curveReturns := curveReturns }

/-- The payoff curve the backtest interpolates over, as built at the call
site `buildPayoffCurve(legs, currentPrice)` (src/unnamed/part_003 line 188):
both optional arguments take their defaults. -/
def backtestPayoffCurve (legs : List StrategyLeg) (currentPrice : ℚ) : PayoffCurve :=
  buildPayoffCurve legs currentPrice

/-- The `while (left <= right)` binary-search loop of `linearInterpolate`
(src/utils/backtest.ts lines 113–121).  `Sum.inl mid` models the early
`return ys[mid]` on an exact hit; `Sum.inr right` the loop exit value of
`right`.  The interval shrinks strictly each iteration, so any fuel larger
than the interval size makes the fuel-exhausted branch unreachable; in-loop
`left + right` is nonnegative, where `Math.floor` agrees with integer
division. -/
def bsearch (xs : List ℚ) (x : ℚ) : ℕ → ℤ → ℤ → ℤ ⊕ ℤ
  | 0, _, right => Sum.inr right
  | fuel + 1, left, right =>
    if left ≤ right then
      let mid := (left + right) / 2
      let xm := jsGetD xs mid 0
      if xm = x then Sum.inl mid
      else if xm < x then bsearch xs x fuel (mid + 1) right
      else bsearch xs x fuel left (mid - 1)
    else Sum.inr right

/-- `linearInterpolate` from `src/utils/backtest.ts` lines 108–133: zero on
mismatched inputs, clamped at both domain ends, exact hits via binary search,
otherwise linear interpolation on the bracketing segment.  The JS
out-of-bounds read `xs[idx + 1]` (`undefined`, which would propagate NaN)
cannot occur for the sorted domains the backtest supplies; `jsGetD`'s `0`
default stands in for it. -/
def linearInterpolate (x : ℚ) (xs ys : List ℚ) : ℚ :=
  if xs.length = 0 ∨ xs.length ≠ ys.length then 0
  else if x ≤ jsGetD xs 0 0 then jsGetD ys 0 0
  else if jsGetD xs ((xs.length : ℤ) - 1) 0 ≤ x then jsGetD ys ((ys.length : ℤ) - 1) 0
  else
    match bsearch xs x (xs.length + 1) 0 ((xs.length : ℤ) - 1) with
    | Sum.inl mid => jsGetD ys mid 0
    | Sum.inr right =>
      let idx := max 0 right
      let x0 := jsGetD xs idx 0
      let x1 := jsGetD xs (idx + 1) 0
      let y0 := jsGetD ys idx 0
      let y1 := jsGetD ys (idx + 1) 0
      if x1 = x0 then y0
      else y0 + (x - x0) / (x1 - x0) * (y1 - y0)

/-- The NPV sum `Σ cashFlows[t] / (1 + rate)^t` (the body of the `npv`
closure and of the Newton iteration, src/utils/backtest.ts lines 137–150). -/
def npvSum (cashFlows : List ℚ) (rate : ℚ) : ℚ :=
  cashFlows.enum.foldl (fun acc p => acc + p.2 / (1 + rate) ^ p.1) 0

/-- The Newton derivative accumulator `dNpv` (lines 146–150):
`−Σ_{t ≥ 1} t·cashFlows[t] / ((1 + rate)^t · (1 + rate))`. -/
def dNpvSum (cashFlows : List ℚ) (rate : ℚ) : ℚ :=
  cashFlows.enum.foldl
    (fun acc p =>
      if 0 < p.1 then acc - (p.1 * p.2) / ((1 + rate) ^ p.1 * (1 + rate)) else acc) 0

/-- The guarded `npv` closure (lines 137–140); `none` models the
`Number.POSITIVE_INFINITY` branch taken when `rate ≤ −0.999999`. -/
def npvOpt (cashFlows : List ℚ) (rate : ℚ) : Option ℚ :=
  if rate ≤ -(999999 / 1000000) then none else some (npvSum cashFlows rate)

/-- The Newton–Raphson phase of `calculateIrr` (lines 142–161): up to `fuel`
iterations; `some rate` models the early `return rate` on convergence, `none`
the two `break`s and loop exhaustion, which fall through to bisection.  The
`!Number.isFinite` guards on `dNpv` and `next` cannot fire over `ℚ`. -/
def newtonPhase (cashFlows : List ℚ) : ℕ → ℚ → Option ℚ
  | 0, _ => none
  | fuel + 1, rate =>
    let npvVal := npvSum cashFlows rate
    let dNpv := dNpvSum cashFlows rate
    if |npvVal| < 1 / 10 ^ 7 then some rate
    else if dNpv = 0 then none
    else
      let next := rate - npvVal / dNpv
      if next ≤ -(999 / 1000) then none
      else newtonPhase cashFlows fuel next

/-- The bisection phase of `calculateIrr` (lines 168–185); after `fuel`
iterations without convergence the source returns the interval midpoint.  The
source calls the guarded `npv(mid)`, whose infinity branch cannot fire since
`mid` stays inside `(−0.999, 10)`. -/
def bisectPhase (cashFlows : List ℚ) : ℕ → ℚ → ℚ → ℚ → ℚ → ℚ
  | 0, low, high, _, _ => (low + high) / 2
  | fuel + 1, low, high, npvLow, npvHigh =>
    let mid := (low + high) / 2
    let npvMid := npvSum cashFlows mid
    if |npvMid| < 1 / 10 ^ 7 then mid
    else if npvLow * npvMid < 0 then bisectPhase cashFlows fuel low mid npvLow npvMid
    else bisectPhase cashFlows fuel mid high npvMid npvHigh

/-- `calculateIrr` from `src/utils/backtest.ts` lines 134–185: `none` for
fewer than two cash flows; Newton–Raphson for up to 60 iterations starting at
0.1; on failure, bisection over `(−0.999, 10)` for up to 120 iterations,
provided NPV changes sign across the bounds — otherwise `none`. -/
def calculateIrr (cashFlows : List ℚ) : Option ℚ :=
  if cashFlows.length < 2 then none
  else
    match newtonPhase cashFlows 60 (1 / 10) with
    | some rate => some rate
    | none =>
      let low : ℚ := -(999 / 1000)
      let high : ℚ := 10
      match npvOpt cashFlows low, npvOpt cashFlows high with
      | some npvLow, some npvHigh =>
        if 0 < npvLow * npvHigh then none
        else some (bisectPhase cashFlows 120 low high npvLow npvHigh)
      | _, _ => none

/-- `periodsPerMonth` from `src/utils/backtest.ts` lines 187–189. -/
def periodsPerMonth : BacktestFrequency → ℚ
  | .WEEKLY => WEEKLY_PERIODS_PER_MONTH
  | .MONTHLY => 1

/-- `BacktestInput` from `src/utils/backtest.ts` lines 191–199
(`monthlyInvestment` defaults to 0 at the destructuring site). -/
structure BacktestInput where
  history : List HistoryPoint
  payoff : PayoffCurve
  baseCapital : ℚ
  monthlyWithdrawal : ℚ
  monthlyInvestment : ℚ
  applyLosses : Bool
  frequency : BacktestFrequency
deriving Repr

/-- The per-run constants of the `history.forEach` loop. -/
structure BtConfig where
  safeCapital : ℚ
  variations : List ℚ
  payoffReturns : List ℚ
  applyLosses : Bool
  periodWithdrawal : ℚ
  periodInvestment : ℚ
deriving Repr

/-- The mutable locals of `runBacktest` threaded through the loop. -/
structure BtState where
  rows : List BacktestRow
  chartPoints : List ChartPoint
  equityPoints : List EquityPoint
  capitalWith : ℚ
  capitalWithout : ℚ
  firstPeriod : Bool
  lossBaseYear : Option ℤ
  lossBaseMonth : Option ℤ
  lossMonths : List ℤ
  wins : ℕ
  losses : ℕ
deriving Repr

def initBtState (safeCapital : ℚ) : BtState :=
  { rows := [], chartPoints := [], equityPoints := [], capitalWith := safeCapital,
    capitalWithout := safeCapital, firstPeriod := true, lossBaseYear := none,
    lossBaseMonth := none, lossMonths := [], wins := 0, losses := 0 }

/-- The body of the `history.forEach` loop of `runBacktest`
(src/utils/backtest.ts lines 257–359) as a state-transition step.  Note the
loss-clock origin is established *before* the null-return check, on the very
first point, whether or not its return is defined.  (`const profitWith`, line
331, is never read afterwards and is omitted.) -/
def btStep (cfg : BtConfig) (st : BtState) (point : HistoryPoint) : BtState :=
  let date := point.time
  let st :=
    if cfg.applyLosses ∧ st.lossBaseYear = none then
      { st with lossBaseYear := some date.year, lossBaseMonth := some (date.month + 1) }
    else st
  match point.returnPct with
  | none =>
    if st.firstPeriod then
      let anchorRow : BacktestRow :=
        { time := date, assetReturn := 0, strategyReturn := 0, profit := 0,
          withdrawal := 0, investment := 0, capital := st.capitalWith,
          lossEvent := false }
      let anchorChart : ChartPoint :=
        { time := date.timeMs, assetReturn := 0, strategyReturn := 0, size := 4 }
      let anchorEquity : EquityPoint :=
        { time := date.timeMs, capitalWith := st.capitalWith,
          capitalWithout := st.capitalWithout }
      { st with
        rows := st.rows ++ [anchorRow],
        chartPoints := st.chartPoints ++ [anchorChart],
        equityPoints := st.equityPoints ++ [anchorEquity],
        firstPeriod := false }
    else st
  | some assetReturn =>
    let strategyReturnBrl := linearInterpolate assetReturn cfg.variations cfg.payoffReturns
    let strategyReturnPct :=
      if 0 < cfg.safeCapital then strategyReturnBrl / cfg.safeCapital else 0
    let prevWithout := st.capitalWithout
    let prevWith := st.capitalWith
    let capitalWithout := prevWithout * (1 + strategyReturnPct)
    let capitalWith := prevWith * (1 + strategyReturnPct)
    let lossData : ℚ × Bool × List ℤ :=
      match cfg.applyLosses, st.lossBaseYear, st.lossBaseMonth with
      | true, some y0, some m0 =>
        let monthsElapsed := (date.year - y0) * 12 + (date.month + 1 - m0) + 1
        if 0 < monthsElapsed ∧ monthsElapsed ∉ st.lossMonths then
          let lossPct := (if monthsElapsed % 6 = 0 then (2 : ℚ) / 100 else 0)
            + (if monthsElapsed % 10 = 0 then (9 : ℚ) / 100 else 0)
          if 0 < lossPct then
            (min lossPct (99 / 100), true, st.lossMonths ++ [monthsElapsed])
          else (0, false, st.lossMonths)
        else (0, false, st.lossMonths)
      | _, _, _ => (0, false, st.lossMonths)
    let lossPct := lossData.1
    let lossEvent := lossData.2.1
    let lossMonths := lossData.2.2
    let capitalWithout :=
      if 0 < lossPct then capitalWithout * (1 - lossPct) else capitalWithout
    let capitalWith :=
      if 0 < lossPct then capitalWith * (1 - lossPct) else capitalWith
    let profitWithout := capitalWithout - prevWithout
    let capitalWith := capitalWith - cfg.periodWithdrawal + cfg.periodInvestment
    let effectiveReturn := if prevWithout ≠ 0 then profitWithout / prevWithout else 0
    let wins := if 0 < effectiveReturn then st.wins + 1 else st.wins
    let losses := if effectiveReturn < 0 then st.losses + 1 else st.losses
    let bubbleSize := min 16 (4 + |effectiveReturn * 100| * (6 / 10))
    let newRow : BacktestRow :=
      { time := date, assetReturn := assetReturn, strategyReturn := effectiveReturn,
        profit := profitWithout, withdrawal := cfg.periodWithdrawal,
        investment := cfg.periodInvestment, capital := capitalWith,
        lossEvent := lossEvent }
    let newChart : ChartPoint :=
      { time := date.timeMs, assetReturn := assetReturn,
        strategyReturn := effectiveReturn, size := bubbleSize }
    let newEquity : EquityPoint :=
      { time := date.timeMs, capitalWith := capitalWith,
        capitalWithout := capitalWithout }
    { rows := st.rows ++ [newRow],
      chartPoints := st.chartPoints ++ [newChart],
      equityPoints := st.equityPoints ++ [newEquity],
      capitalWith := capitalWith, capitalWithout := capitalWithout,
      firstPeriod := false, lossBaseYear := st.lossBaseYear,
      lossBaseMonth := st.lossBaseMonth, lossMonths := lossMonths,
      wins := wins, losses := losses }

/-- The `emptyMetrics` object of `runBacktest` (lines 213–226). -/
def emptyMetrics (safeCapital : ℚ) : BacktestMetrics :=
  { initialCapital := safeCapital, finalCapitalNoWithdrawal := safeCapital,
    finalCapitalWithWithdrawal := safeCapital, totalProfitPct := 0,
    avgMonthlyProfit := 0, monthlyEquivalentRate := 0,
    profitWithWithdrawalPct := 0, monthlyRateWithWithdrawal := 0,
    monthlyIrr := 0, wins := 0, losses := 0 }

/-- `cashFlows[cashFlows.length − 1] += v`. -/
def addToLast : List ℚ → ℚ → List ℚ
  | [], _ => []
  | [x], v => [x + v]
  | x :: y :: xs, v => x :: addToLast (y :: xs) v

/-- JS truncation toward zero, as used by the JS `%` operator. -/
def jsTrunc (q : ℚ) : ℤ := if q < 0 then ⌈q⌉ else ⌊q⌋

/-- The JS remainder operator `a % b` on rationals. -/
def jsMod (a b : ℚ) : ℚ := a - b * (jsTrunc (a / b) : ℚ)

/-- The IRR cash-flow vector of `runBacktest` (lines 405–421):
`[-safeCapital, flow, …, flow]` with the final capital added onto the last
element; for WEEKLY frequency a cash flow appears only on periods that
complete a month (`(i + 1) % 4.33 < 1`), others are zero. -/
def irrCashFlows (frequency : BacktestFrequency) (safeCapital netMonthlyFlow : ℚ)
    (numPeriods : ℕ) (finalWith : ℚ) : List ℚ :=
  match frequency with
  | .MONTHLY =>
    addToLast ((-safeCapital) :: List.replicate numPeriods netMonthlyFlow) finalWith
  | .WEEKLY =>
    addToLast
      ((-safeCapital) :: (List.range numPeriods).map fun i : ℕ =>
        if jsMod ((i : ℚ) + 1) (periodsPerMonth .WEEKLY) < 1 then netMonthlyFlow else 0)
      finalWith

/-- The `monthlyIrr` metric of `runBacktest` (lines 404–425): solve the IRR
of the cash-flow vector and scale to a monthly rate; a `null` IRR is
surfaced as `0`. -/
def monthlyIrrMetric (rpow : ℚ → ℚ → ℚ) (frequency : BacktestFrequency)
    (safeCapital netMonthlyFlow : ℚ) (numPeriods : ℕ) (finalWith : ℚ) : ℚ :=
  if 0 < numPeriods ∧ 0 < safeCapital then
    match frequency with
    | .MONTHLY =>
      match calculateIrr (irrCashFlows .MONTHLY safeCapital netMonthlyFlow numPeriods finalWith) with
      | none => 0
      | some irr => irr * 100
    | .WEEKLY =>
      match calculateIrr (irrCashFlows .WEEKLY safeCapital netMonthlyFlow numPeriods finalWith) with
      | none => 0
      | some irr => (rpow (1 + irr) (periodsPerMonth .WEEKLY) - 1) * 100
  else 0

/-- `const safeCapital = baseCapital > 0 ? baseCapital : 0` (line 210). -/
def safeCapitalOf (input : BacktestInput) : ℚ :=
  if 0 < input.baseCapital then input.baseCapital else 0

/-- `periodWithdrawal` (lines 247–249). -/
def periodWithdrawalOf (input : BacktestInput) : ℚ :=
  match input.frequency with
  | .WEEKLY => input.monthlyWithdrawal / WEEKLY_PERIODS_PER_MONTH
  | .MONTHLY => input.monthlyWithdrawal

/-- `periodInvestment` (lines 251–253). -/
def periodInvestmentOf (input : BacktestInput) : ℚ :=
  match input.frequency with
  | .WEEKLY => input.monthlyInvestment / WEEKLY_PERIODS_PER_MONTH
  | .MONTHLY => input.monthlyInvestment

/-- The loop constants of a run, assembled from the input. -/
def btConfigOf (input : BacktestInput) : BtConfig :=
  { safeCapital := safeCapitalOf input, variations := input.payoff.variations,
    payoffReturns := input.payoff.curveReturns, applyLosses := input.applyLosses,
    periodWithdrawal := periodWithdrawalOf input,
    periodInvestment := periodInvestmentOf input }

/-- The final state of the `history.forEach` loop. -/
def btFold (input : BacktestInput) : BtState :=
  input.history.foldl (btStep (btConfigOf input)) (initBtState (safeCapitalOf input))

/-- `runBacktest` from `src/utils/backtest.ts` lines 198–459.  `rpow` is a
parameter standing in for the floating-point `Math.pow` applied to fractional
exponents by the monthly-rate metrics (floating-point powers are not
modelled); every property proved below holds for every `rpow`. -/
def runBacktest (rpow : ℚ → ℚ → ℚ) (input : BacktestInput) : BacktestResult :=
  let safeCapital := safeCapitalOf input
  if input.history.length = 0 ∨ input.payoff.variations.length = 0 ∨ safeCapital ≤ 0 then
    { rows := [], chartPoints := [], equity := [], metrics := emptyMetrics safeCapital }
  else
    let final := btFold input
    let finalCapitalNoWithdrawal := match final.equityPoints.getLast? with
      | some e => e.capitalWithout
      | none => safeCapital
    let finalCapitalWithWithdrawal := match final.equityPoints.getLast? with
      | some e => e.capitalWith
      | none => safeCapital
    let totalProfit := finalCapitalNoWithdrawal - safeCapital
    let totalProfitPct := if 0 < safeCapital then totalProfit / safeCapital * 100 else 0
    let numPeriods := final.rows.length - 1
    let numMonths : ℚ :=
      if 1 < final.rows.length then
        let startMs := match final.rows.head? with
          | some r => r.time.timeMs
          | none => 0
        let endMs := match final.rows.getLast? with
          | some r => r.time.timeMs
          | none => 0
        ((endMs - startMs : ℤ) : ℚ) / (1000 * 60 * 60 * 24) / (3044 / 100)
      else 0
    let avgMonthlyProfit := if 0 < numMonths then totalProfit / numMonths else 0
    let monthlyEquivalentRate :=
      if 0 < numPeriods ∧ 0 < safeCapital ∧ 0 < finalCapitalNoWithdrawal then
        let ratePerPeriod :=
          rpow (finalCapitalNoWithdrawal / safeCapital) (1 / (numPeriods : ℚ)) - 1
        match input.frequency with
        | .MONTHLY => ratePerPeriod * 100
        | .WEEKLY => (rpow (1 + ratePerPeriod) (periodsPerMonth .WEEKLY) - 1) * 100
      else 0
    let profitWithWithdrawal := finalCapitalWithWithdrawal - safeCapital
    let profitWithWithdrawalPct :=
      if 0 < safeCapital then profitWithWithdrawal / safeCapital * 100 else 0
    let monthlyRateWithWithdrawal :=
      if 0 < numPeriods ∧ 0 < safeCapital ∧ 0 < finalCapitalWithWithdrawal then
        let ratePerPeriod :=
          rpow (finalCapitalWithWithdrawal / safeCapital) (1 / (numPeriods : ℚ)) - 1
        match input.frequency with
        | .MONTHLY => ratePerPeriod * 100
        | .WEEKLY => (rpow (1 + ratePerPeriod) (periodsPerMonth .WEEKLY) - 1) * 100
      else 0
    let monthlyIrr := monthlyIrrMetric rpow input.frequency safeCapital
      (input.monthlyWithdrawal - input.monthlyInvestment) numPeriods
      finalCapitalWithWithdrawal
    let metrics : BacktestMetrics :=
      { initialCapital := safeCapital,
        finalCapitalNoWithdrawal := finalCapitalNoWithdrawal,
        finalCapitalWithWithdrawal := finalCapitalWithWithdrawal,
        totalProfitPct := totalProfitPct, avgMonthlyProfit := avgMonthlyProfit,
        monthlyEquivalentRate := monthlyEquivalentRate,
        profitWithWithdrawalPct := profitWithWithdrawalPct,
        monthlyRateWithWithdrawal := monthlyRateWithWithdrawal,
        monthlyIrr := monthlyIrr, wins := final.wins, losses := final.losses }
    { rows := final.rows, chartPoints := final.chartPoints,
      equity := final.equityPoints, metrics := metrics }

/-- The loss-clock origin of the *claimed* loss-injection policy: the first
history point with a defined return, mapped to `(getFullYear, getMonth + 1)`. -/
def specLossOrigin (history : List HistoryPoint) : Option (ℤ × ℤ) :=
  (history.find? fun p => p.returnPct.isSome).map fun p => (p.time.year, p.time.month + 1)

/-- The additive (pre-cap) haircut of the loss schedule at month-count `m`:
+2% on multiples of 6 plus +9% on multiples of 10. -/
def lossPctAt (m : ℤ) : ℚ :=
  (if m % 6 = 0 then (2 : ℚ) / 100 else 0) + (if m % 10 = 0 then (9 : ℚ) / 100 else 0)

/-- Whole months elapsed since the loss-clock origin `(y0, m0)` at date `d`,
1-indexed, as computed by the source. -/
def monthsElapsedFrom (y0 m0 : ℤ) (d : JSDate) : ℤ :=
  (d.year - y0) * 12 + (d.month + 1 - m0) + 1

end Op

/-! ### Concrete inputs used by the individual claims -/

/-- A plain long-underlying leg. -/
def c5Leg : Op.StrategyLeg :=
  { instrument := .UNDERLYING, side := .BUY, type := none, strike := none,
    premium := 100, quantity := 1, contractSize := some 100 }

/-- A long call with a positive strike, held while the current price is
invalid. -/
def c6Leg : Op.StrategyLeg :=
  { instrument := .OPTION, side := .BUY, type := some .CALL, strike := some 10,
    premium := 1, quantity := 1, contractSize := some 100 }

/-- A backtest input with an empty history but a positive base capital. -/
def c7Input : Op.BacktestInput :=
  { history := [], payoff := { basePrice := 100, variations := [-1, 1], curveReturns := [0, 0] },
    baseCapital := 100, monthlyWithdrawal := 0, monthlyInvestment := 0,
    applyLosses := false, frequency := .MONTHLY }

/-- A leg with a *negative* `contractSize`. -/
def c8Leg : Op.StrategyLeg :=
  { instrument := .UNDERLYING, side := .BUY, type := none, strike := none,
    premium := 1, quantity := 1, contractSize := some (-1) }

/-- A leg with an absent `contractSize` (for the C8 witness). -/
def c8LegAbsent : Op.StrategyLeg :=
  { instrument := .UNDERLYING, side := .BUY, type := none, strike := none,
    premium := 1, quantity := 1, contractSize := none }

/-- A two-point history whose first point has no defined return (January
2020) and whose second point (June 2020) has a defined return of −1
(clamped to the curve's left edge, which returns 0 profit). -/
def c3History : List Op.HistoryPoint :=
  [ { time := { year := 2020, month := 0, timeMs := 0 }, close := 100, returnPct := none },
    { time := { year := 2020, month := 5, timeMs := 13132800000 }, close := 100,
      returnPct := some (-1) } ]

/-- A default row for indexed reads in concrete statements. -/
def c3DefaultRow : Op.BacktestRow :=
  { time := { year := 0, month := 0, timeMs := 0 }, assetReturn := 0,
    strategyReturn := 0, profit := 0, withdrawal := 0, investment := 0,
    capital := 0, lossEvent := false }

/-- A flat payoff curve (zero strategy return on any move). -/
def c3Payoff : Op.PayoffCurve :=
  { basePrice := 100, variations := [-1, 1], curveReturns := [0, 0] }

/-- The C3 backtest input: synthetic losses enabled, no cash flows. -/
def c3Input : Op.BacktestInput :=
  { history := c3History, payoff := c3Payoff, baseCapital := 100,
    monthlyWithdrawal := 0, monthlyInvestment := 0, applyLosses := true,
    frequency := .MONTHLY }

/-- A two-point history with defined returns (for witnesses needing real
rows). -/
def c9History : List Op.HistoryPoint :=
  [ { time := { year := 2021, month := 0, timeMs := 0 }, close := 100, returnPct := none },
    { time := { year := 2021, month := 1, timeMs := 2678400000 }, close := 105,
      returnPct := some (1 / 20) } ]

/-- The C9 backtest input: no withdrawal, no investment, no losses. -/
def c9Input : Op.BacktestInput :=
  { history := c9History,
    payoff := { basePrice := 100, variations := [-1, 1], curveReturns := [-50, 50] },
    baseCapital := 100, monthlyWithdrawal := 0, monthlyInvestment := 0,
    applyLosses := false, frequency := .MONTHLY }

/-- A history point with an undefined return (for the C10 witness). -/
def c10Point : Op.HistoryPoint :=
  { time := { year := 2022, month := 3, timeMs := 5 }, close := 50, returnPct := none }

/-- An already-emitted row (for the C10 witness state). -/
def c10Row : Op.BacktestRow :=
  { time := { year := 2022, month := 2, timeMs := 4 }, assetReturn := 0,
    strategyReturn := 0, profit := 0, withdrawal := 0, investment := 0,
    capital := 100, lossEvent := false }

/-- A mid-run state that has already emitted one row (for the C10 witness). -/
def c10State : Op.BtState :=
  { rows := [c10Row], chartPoints := [], equityPoints := [], capitalWith := 100,
    capitalWithout := 100, firstPeriod := false, lossBaseYear := some 2022,
    lossBaseMonth := some 3, lossMonths := [], wins := 0, losses := 0 }

/-- A loop configuration (for the C10 witness). -/
def c10Cfg : Op.BtConfig :=
  { safeCapital := 100, variations := [-1, 1], payoffReturns := [0, 0],
    applyLosses := false, periodWithdrawal := 0, periodInvestment := 0 }

/-- The loss schedule's trigger condition for a period whose month-count is
`m`: positive, not yet triggered, and on the 6- or 10-multiple schedule. -/
def lossTrigger (lossMonths : List ℤ) (m : ℤ) : Prop :=
  0 < m ∧ m ∉ lossMonths ∧ (m % 6 = 0 ∨ m % 10 = 0)

instance (lossMonths : List ℤ) (m : ℤ) : Decidable (lossTrigger lossMonths m) := by
  unfold lossTrigger
  infer_instance

/-- The multiplicative haircut factor applied to both equity tracks at
month-count `m`: `1 − min(lossPctAt m, 0.99)` when the trigger fires, else 1. -/
def lossHaircutFactor (lossMonths : List ℤ) (m : ℤ) : ℚ :=
  if lossTrigger lossMonths m then 1 - min (Op.lossPctAt m) (99 / 100) else 1

/-- The per-period strategy return fraction of one loop step. -/
def strategyReturnPctOf (cfg : Op.BtConfig) (r : ℚ) : ℚ :=
  if 0 < cfg.safeCapital then
    Op.linearInterpolate r cfg.variations cfg.payoffReturns / cfg.safeCapital
  else 0

/-- A loop configuration with synthetic losses enabled (for the C3 witness). -/
def c3Cfg : Op.BtConfig :=
  { safeCapital := 100, variations := [-1, 1], payoffReturns := [0, 0],
    applyLosses := true, periodWithdrawal := 0, periodInvestment := 0 }

/-- The first (undefined-return) point of the C3 history. -/
def c3P0 : Op.HistoryPoint :=
  { time := { year := 2020, month := 0, timeMs := 0 }, close := 100, returnPct := none }

/-- C1: `calculateLegPayoff` agrees with the reference payoff definition on
every leg and every hypothetical underlying price: UNDERLYING legs pay the
signed move times `quantity × contractSize`, OPTION legs pay intrinsic value
minus premium (sign-flipped for SELL) times `quantity × contractSize`, and an
OPTION leg missing its type or strike contributes exactly zero. -/
theorem c1_leg_payoff_matches_spec (leg : Op.StrategyLeg) (p : ℚ) :
    Op.calculateLegPayoff leg p = Op.legPayoffSpec leg p := by
  unfold Op.calculateLegPayoff Op.legPayoffSpec
  cases leg with
  | mk instrument side type strike premium quantity contractSize =>
    cases instrument <;> cases side <;>
      rcases type with _ | t <;> (try cases t) <;> rcases strike with _ | k <;>
      simp

/-- C2: the break-even collection reported by `calculateStrategyStats` is
exactly the specification's: for every pair of consecutive curve samples whose
profits cross zero (inclusive of an exact zero), the linear interpolation
`leftMove + t × (rightMove − leftMove)` with
`t = (0 − leftProfit) / (rightProfit − leftProfit)`, rounded to 4 decimals,
deduplicated at that precision, and sorted ascending. -/
theorem c2_break_evens_match_spec (legs : List Op.StrategyLeg)
    (payoffData : List Op.PayoffData) (currentPrice : ℚ) :
    (Op.calculateStrategyStats legs payoffData currentPrice).breakEvens =
      Op.breakEvensSpec payoffData := by
  by_cases h : payoffData.length = 0
  · have hnil : payoffData = [] := List.length_eq_zero.mp h
    subst hnil
    simp [Op.calculateStrategyStats, Op.breakEvensSpec, Op.adjacentPairs]
  · have hbe : (Op.calculateStrategyStats legs payoffData currentPrice).breakEvens =
        ((Op.adjacentPairs payoffData).foldl Op.breakEvenStep []).mergeSort := by
      simp only [Op.calculateStrategyStats, if_neg h]
    rw [hbe, Op.breakEvensSpec]
    set L := (Op.adjacentPairs payoffData).foldl Op.breakEvenStep [] with hL
    set R := (((Op.adjacentPairs payoffData).filter fun pr =>
        decide (Op.beCrosses pr)).map Op.beValue).dedup with hR
    have hLnodup : L.Nodup := Op.nodup_foldl_breakEvenStep _ _ List.nodup_nil
    have hRnodup : R.Nodup := List.nodup_dedup _
    have hmem : ∀ x : ℚ, x ∈ L ↔ x ∈ R := by
      intro x
      rw [hL, Op.mem_foldl_breakEvenStep, hR, List.mem_dedup]
      simp
    have hperm : List.Perm L R := by
      refine List.perm_of_nodup_nodup_toFinset_eq hLnodup hRnodup ?_
      ext a
      simp only [List.mem_toFinset]
      exact hmem a
    exact List.eq_of_perm_of_sorted
      ((List.mergeSort_perm L _).trans (hperm.trans (List.mergeSort_perm R _).symm))
      (List.sorted_mergeSort' L) (List.sorted_mergeSort' R)


/-- C7 counterexample: with an empty history but base capital 100, the
metrics of the (otherwise empty) result are *not* zero-filled — the initial
capital field echoes the base capital. -/
theorem c7_counterexample :
    (Op.runBacktest (fun _ _ => 0) c7Input).metrics.initialCapital = 100 ∧
      (100 : ℚ) ≠ 0 := by
  constructor
  · rfl
  · norm_num

/-- C7 (amended): an empty history, an empty payoff-curve `variations` array,
or a non-positive base capital makes `runBacktest` return the empty result —
no rows, empty chart series, and the `emptyMetrics` object: every rate,
profit and count field zero, the three capital fields echoing the sanitized
base capital (the base capital if positive, else 0) — and never an error. -/
theorem c7_empty_inputs_empty_result (rpow : ℚ → ℚ → ℚ) (input : Op.BacktestInput)
    (h : input.history = [] ∨ input.payoff.variations = [] ∨ input.baseCapital ≤ 0) :
    Op.runBacktest rpow input =
      { rows := [], chartPoints := [], equity := [],
        metrics := Op.emptyMetrics (if 0 < input.baseCapital then input.baseCapital else 0) } := by
  rcases h with h | h | h
  · simp [Op.runBacktest, Op.safeCapitalOf, h]
  · simp [Op.runBacktest, Op.safeCapitalOf, h]
  · have hneg : ¬(0 < input.baseCapital) := not_lt.mpr h
    simp [Op.runBacktest, Op.safeCapitalOf, hneg]

/-- C7 witness: the amended theorem applied to the concrete empty-history
input. -/
theorem c7_witness :
    Op.runBacktest (fun _ _ => 0) c7Input =
      { rows := [], chartPoints := [], equity := [], metrics := Op.emptyMetrics 100 } := by
  have h := c7_empty_inputs_empty_result (fun _ _ => 0) c7Input (Or.inl rfl)
  simpa [c7Input] using h

/-- C4: the IRR solver signals failure with `null`, never an exception:
whenever the Newton–Raphson phase (up to 60 iterations from 0.1) fails to
converge and the NPV has no sign change across the bisection bounds
`(−0.999, 10)`, `calculateIrr` returns `none`; and the backtest's
`monthlyIrr` metric surfaces a `none` IRR as `0`, for either frequency. -/
theorem c4_irr_no_sign_change_null :
    (∀ cashFlows : List ℚ,
        Op.newtonPhase cashFlows 60 (1 / 10) = none →
        0 < Op.npvSum cashFlows (-(999 / 1000)) * Op.npvSum cashFlows 10 →
        Op.calculateIrr cashFlows = none) ∧
    (∀ (rpow : ℚ → ℚ → ℚ) (frequency : Op.BacktestFrequency) (sc nf fw : ℚ) (np : ℕ),
        Op.calculateIrr (Op.irrCashFlows frequency sc nf np fw) = none →
        Op.monthlyIrrMetric rpow frequency sc nf np fw = 0) := by
  constructor
  · intro cashFlows hnewton hsign
    by_cases hlen : cashFlows.length < 2
    · simp [Op.calculateIrr, hlen]
    · have h1 : ¬((-(999 / 1000) : ℚ) ≤ -(999999 / 1000000)) := by norm_num
      have h2 : ¬((10 : ℚ) ≤ -(999999 / 1000000)) := by norm_num
      simp only [Op.calculateIrr, if_neg hlen, hnewton, Op.npvOpt, if_neg h1, if_neg h2]
      simp [hsign]
  · intro rpow frequency sc nf fw np hnone
    unfold Op.monthlyIrrMetric
    by_cases hcond : 0 < np ∧ 0 < sc
    · rw [if_pos hcond]
      cases frequency <;> rw [hnone]
    · rw [if_neg hcond]

/-- C4 witness: on the cash flows `[1, 0]` Newton breaks immediately (zero
derivative) and the NPV is 1 at both bisection bounds, so the IRR is `none`;
and the metric built from parameters whose cash-flow vector is the likewise
unsolvable `[-1, 0]` is surfaced as 0. -/
theorem c4_witness :
    Op.calculateIrr [1, 0] = none ∧
      Op.monthlyIrrMetric (fun _ _ => 0) .MONTHLY 1 0 1 0 = 0 := by
  have hnewton : Op.newtonPhase [1, 0] 60 (1 / 10) = none := by
    rw [show (60 : ℕ) = 59 + 1 from rfl, Op.newtonPhase]
    norm_num [Op.npvSum, Op.dNpvSum, List.enum, List.enumFrom]
  have hsign : 0 < Op.npvSum [1, 0] (-(999 / 1000)) * Op.npvSum [1, 0] 10 := by
    norm_num [Op.npvSum, List.enum, List.enumFrom]
  have hnewton2 : Op.newtonPhase [-1, 0] 60 (1 / 10) = none := by
    rw [show (60 : ℕ) = 59 + 1 from rfl, Op.newtonPhase]
    norm_num [Op.npvSum, Op.dNpvSum, List.enum, List.enumFrom]
  have hsign2 : 0 < Op.npvSum [-1, 0] (-(999 / 1000)) * Op.npvSum [-1, 0] 10 := by
    norm_num [Op.npvSum, List.enum, List.enumFrom]
  have hcf : Op.irrCashFlows .MONTHLY 1 0 1 0 = [-1, 0] := by
    norm_num [Op.irrCashFlows, Op.addToLast, List.replicate]
  refine ⟨c4_irr_no_sign_change_null.1 [1, 0] hnewton hsign,
    c4_irr_no_sign_change_null.2 (fun _ _ => 0) .MONTHLY 1 0 0 1 ?_⟩
  rw [hcf]
  exact c4_irr_no_sign_change_null.1 [-1, 0] hnewton2 hsign2

/-- C8 counterexample: a leg with `contractSize = −1` (non-positive) is *not*
given the default multiplier 100 — JS `||` only replaces falsy values, so the
negative contract size is used as-is: the payoff at price 2 is −1 where a
substituted default would give 100, and the strategy cost is 1 instead of
−100. -/
theorem c8_counterexample :
    Op.calculateLegPayoff c8Leg 2 = -1 ∧
      Op.calculateLegPayoff { c8Leg with contractSize := some 100 } 2 = 100 ∧
      Op.calculateStrategyCost [c8Leg] = 1 ∧
      Op.calculateStrategyCost [{ c8Leg with contractSize := some 100 }] = -100 := by
  refine ⟨?_, ?_, ?_, ?_⟩
  · norm_num [Op.calculateLegPayoff, c8Leg, Op.contractSizeOrDefault]
  · norm_num [Op.calculateLegPayoff, c8Leg, Op.contractSizeOrDefault]
  · simp only [Op.calculateStrategyCost, c8Leg, List.foldl_cons, List.foldl_nil]
    rw [if_neg (by decide : ¬Op.Side.BUY = Op.Side.SELL)]
    norm_num [Op.contractSizeOrDefault]
  · simp only [Op.calculateStrategyCost, c8Leg, List.foldl_cons, List.foldl_nil]
    rw [if_neg (by decide : ¬Op.Side.BUY = Op.Side.SELL)]
    norm_num [Op.contractSizeOrDefault]

/-- C8 (amended): the conventional default contract size 100 is substituted
exactly when `contractSize` is absent or zero (the JS-falsy cases), in both
the leg payoff and the strategy cost. -/
theorem c8_contract_size_default (leg : Op.StrategyLeg)
    (h : leg.contractSize = none ∨ leg.contractSize = some 0) :
    (∀ p : ℚ, Op.calculateLegPayoff leg p =
        Op.calculateLegPayoff { leg with contractSize := some 100 } p) ∧
    (∀ legs : List Op.StrategyLeg,
        Op.calculateStrategyCost (leg :: legs) =
          Op.calculateStrategyCost ({ leg with contractSize := some 100 } :: legs)) := by
  have hcs : Op.contractSizeOrDefault leg.contractSize = 100 := by
    rcases h with h | h <;> rw [h] <;> rfl
  have hcs2 : Op.contractSizeOrDefault (some 100) = (100 : ℚ) := by
    norm_num [Op.contractSizeOrDefault]
  constructor
  · intro p
    unfold Op.calculateLegPayoff
    simp only [hcs, hcs2]
  · intro legs
    unfold Op.calculateStrategyCost
    simp only [List.foldl_cons, hcs, hcs2]

/-- C8 witness: the amended theorem applied to a concrete absent-contract-size
leg at price 2. -/
theorem c8_witness :
    Op.calculateLegPayoff c8LegAbsent 2 =
      Op.calculateLegPayoff { c8LegAbsent with contractSize := some 100 } 2 :=
  (c8_contract_size_default c8LegAbsent (Or.inl rfl)).1 2

/-- C6 counterexample: the absolute-price sweep does *not* return an empty
curve for a non-positive current price — the invalid price is merely filtered
out of the reference points, and a leg with a positive strike keeps the curve
fully populated (321 samples). -/
theorem c6_counterexample :
    (Op.generatePayoffDataAbs [c6Leg] (-5)).length = 321 ∧ (321 : ℕ) ≠ 0 := by
  constructor
  · have h : Op.referencePoints [c6Leg] (-5) = [10] := by
      norm_num [Op.referencePoints, c6Leg, List.filter]
    rw [Op.generatePayoffDataAbs, h]
    simp
  · norm_num

/-- C6 (amended): the two percentage-move builders return an empty curve for
an empty leg set or a non-positive current price (a non-finite price cannot
exist over `ℚ`); the absolute-price sweep returns an empty curve for an empty
leg set or when the positive reference points (current price, option strikes,
underlying entry prices) are exhausted — a non-positive current price alone
does not empty it. -/
theorem c6_degenerate_inputs_empty_curve :
    (∀ (legs : List Op.StrategyLeg) (price rangePct : ℚ) (points : ℕ),
        legs = [] ∨ price ≤ 0 →
        Op.generatePayoffData legs price = [] ∧
        (Op.buildPayoffCurve legs price rangePct points).variations = [] ∧
        (Op.buildPayoffCurve legs price rangePct points).curveReturns = []) ∧
    (∀ (legs : List Op.StrategyLeg) (price : ℚ),
        legs = [] ∨ Op.referencePoints legs price = [] →
        Op.generatePayoffDataAbs legs price = []) := by
  constructor
  · intro legs price rangePct points h
    rcases h with h | h
    · subst h
      exact ⟨rfl, rfl, rfl⟩
    · refine ⟨?_, ?_, ?_⟩ <;> simp [Op.generatePayoffData, Op.buildPayoffCurve, h]
  · intro legs price h
    rcases h with h | h
    · subst h
      rfl
    · unfold Op.generatePayoffDataAbs
      by_cases hlen : legs.length = 0
      · simp [hlen]
      · simp [hlen, h]

/-- C6 witness: the amended theorem applied to concrete degenerate inputs. -/
theorem c6_witness :
    Op.generatePayoffData [] 100 = [] ∧ Op.generatePayoffDataAbs [] (-5) = [] :=
  ⟨(c6_degenerate_inputs_empty_curve.1 [] 100 (3 / 10) 250 (Or.inl rfl)).1,
    c6_degenerate_inputs_empty_curve.2 [] (-5) (Or.inl rfl)⟩

/-- C5 counterexample: the payoff curve actually used as the backtest's
interpolation table (the call site passes only `legs` and the current price,
so the defaults `rangePct = 0.3`, `points = 250` apply) has 250 sample points
— not 321 — and starts at the fractional move −0.3 (−30%), not −40%. -/
theorem c5_counterexample :
    (Op.backtestPayoffCurve [c5Leg] 100).variations.length = 250 ∧
      (250 : ℕ) ≠ 321 ∧
      (Op.backtestPayoffCurve [c5Leg] 100).variations.getD 0 0 = -(3 / 10) ∧
      (-(3 / 10) : ℚ) ≠ -(2 / 5) := by
  have hg : ¬(([c5Leg] : List Op.StrategyLeg).length = 0 ∨ (100 : ℚ) ≤ 0) := by
    push_neg
    exact ⟨by simp, by norm_num⟩
  refine ⟨?_, by norm_num, ?_, by norm_num⟩
  · rw [Op.backtestPayoffCurve, Op.buildPayoffCurve, if_neg hg]
    simp
  · rw [Op.backtestPayoffCurve, Op.buildPayoffCurve, if_neg hg]
    dsimp only
    rw [List.getD_eq_getElem _ _ (by simp)]
    simp only [List.getElem_map, List.getElem_range]
    norm_num [Op.roundDp, Op.jsRound]

/-- C5 (amended): for every non-empty leg set and positive current price, the
backtest's interpolation curve (built with the call-site defaults
`rangePct = 0.3`, `points = 250`) samples exactly 250 points over the
symmetric window ±30%: `variations[i] = round6(−0.3 + (0.6 / 249)·i)`, with
`variations[0] = −0.3` and `variations[249] = 0.3`. -/
theorem c5_backtest_curve_window (legs : List Op.StrategyLeg) (price : ℚ)
    (h1 : legs ≠ []) (h2 : 0 < price) :
    (Op.backtestPayoffCurve legs price).variations =
      (List.range 250).map (fun i : ℕ => Op.roundDp 6 (-(3 / 10) + 3 / 5 / 249 * i)) ∧
    (Op.backtestPayoffCurve legs price).variations.length = 250 ∧
    (Op.backtestPayoffCurve legs price).variations.getD 0 0 = -(3 / 10) ∧
    (Op.backtestPayoffCurve legs price).variations.getD 249 0 = 3 / 10 := by
  have hg : ¬(legs.length = 0 ∨ price ≤ 0) := by
    push_neg
    exact ⟨fun hl => h1 (List.length_eq_zero.mp hl), h2⟩
  have hvar : (Op.backtestPayoffCurve legs price).variations =
      (List.range 250).map (fun i : ℕ => Op.roundDp 6 (-(3 / 10) + 3 / 5 / 249 * i)) := by
    rw [Op.backtestPayoffCurve, Op.buildPayoffCurve, if_neg hg]
    dsimp only
    congr 1
    funext i
    congr 1
    norm_num
  refine ⟨hvar, ?_, ?_, ?_⟩
  · rw [hvar]
    simp
  · rw [hvar, List.getD_eq_getElem _ _ (by simp)]
    simp only [List.getElem_map, List.getElem_range]
    norm_num [Op.roundDp, Op.jsRound]
  · rw [hvar, List.getD_eq_getElem _ _ (by simp)]
    simp only [List.getElem_map, List.getElem_range]
    norm_num [Op.roundDp, Op.jsRound]

/-- C5 witness: the amended theorem applied to a concrete leg and price. -/
theorem c5_witness :
    (Op.backtestPayoffCurve [c5Leg] 100).variations.length = 250 :=
  (c5_backtest_curve_window [c5Leg] 100 (by simp) (by norm_num)).2.1

/-- One step of the loop preserves equality of the two equity tracks when
there are no cash flows and no synthetic losses. -/
lemma btStep_equal_tracks (cfg : Op.BtConfig) (hW : cfg.periodWithdrawal = 0)
    (hI : cfg.periodInvestment = 0) (hL : cfg.applyLosses = false)
    (st : Op.BtState) (p : Op.HistoryPoint)
    (hcap : st.capitalWith = st.capitalWithout)
    (heq : ∀ e ∈ st.equityPoints, e.capitalWith = e.capitalWithout) :
    (Op.btStep cfg st p).capitalWith = (Op.btStep cfg st p).capitalWithout ∧
      ∀ e ∈ (Op.btStep cfg st p).equityPoints, e.capitalWith = e.capitalWithout := by
  unfold Op.btStep
  simp only [hL, Bool.false_eq_true, false_and, if_false]
  cases hp : p.returnPct with
  | none =>
    by_cases hfp : st.firstPeriod = true
    · simp only [hfp, if_true, if_pos]
      refine ⟨hcap, ?_⟩
      intro e he
      rcases List.mem_append.mp he with he | he
      · exact heq e he
      · simp at he
        subst he
        exact hcap
    · simp only [Bool.not_eq_true] at hfp
      simp only [hfp, Bool.false_eq_true, if_false]
      exact ⟨hcap, heq⟩
  | some ret =>
    simp only [hL]
    constructor
    · simp [hW, hI, hcap]
    · intro e he
      simp only [List.mem_append] at he
      rcases he with he | he
      · exact heq e he
      · simp at he
        subst he
        simp [hW, hI, hcap]

/-- The whole loop preserves equality of the two equity tracks. -/
lemma btStepFold_equal_tracks (cfg : Op.BtConfig) (hW : cfg.periodWithdrawal = 0)
    (hI : cfg.periodInvestment = 0) (hL : cfg.applyLosses = false)
    (hist : List Op.HistoryPoint) :
    ∀ st : Op.BtState, st.capitalWith = st.capitalWithout →
      (∀ e ∈ st.equityPoints, e.capitalWith = e.capitalWithout) →
      (hist.foldl (Op.btStep cfg) st).capitalWith =
        (hist.foldl (Op.btStep cfg) st).capitalWithout ∧
      ∀ e ∈ (hist.foldl (Op.btStep cfg) st).equityPoints,
        e.capitalWith = e.capitalWithout := by
  induction hist with
  | nil => exact fun st h1 h2 => ⟨h1, h2⟩
  | cons p rest ih =>
    intro st h1 h2
    rw [List.foldl_cons]
    obtain ⟨h1a, h2a⟩ := btStep_equal_tracks cfg hW hI hL st p h1 h2
    exact ih _ h1a h2a

/-- The equity series of a run: empty under the degenerate-input guard, the
loop's equity points otherwise. -/
lemma runBacktest_equity_eq (rpow : ℚ → ℚ → ℚ) (input : Op.BacktestInput) :
    (Op.runBacktest rpow input).equity =
      if input.history.length = 0 ∨ input.payoff.variations.length = 0 ∨
          Op.safeCapitalOf input ≤ 0 then []
      else (Op.btFold input).equityPoints := by
  unfold Op.runBacktest
  dsimp only
  by_cases hg : (input.history.length = 0 ∨ input.payoff.variations.length = 0 ∨
      Op.safeCapitalOf input ≤ 0)
  · simp only [if_pos hg]
  · simp only [if_neg hg]

/-- C9: with `monthlyWithdrawal = 0`, `monthlyInvestment = 0` and
`applyLosses = false`, the two equity tracks coincide at every emitted equity
point of the run, for every history, payoff curve, base capital and
frequency. -/
theorem c9_zero_flows_equal_tracks (rpow : ℚ → ℚ → ℚ)
    (history : List Op.HistoryPoint) (payoff : Op.PayoffCurve) (baseCapital : ℚ)
    (frequency : Op.BacktestFrequency) :
    ∀ e ∈ (Op.runBacktest rpow
        { history := history, payoff := payoff, baseCapital := baseCapital,
          monthlyWithdrawal := 0, monthlyInvestment := 0, applyLosses := false,
          frequency := frequency }).equity,
      e.capitalWith = e.capitalWithout := by
  intro e he
  rw [runBacktest_equity_eq] at he
  split at he
  · simp at he
  · refine (btStepFold_equal_tracks _ ?_ ?_ ?_ _ _ rfl ?_).2 e he
    · cases frequency <;> simp [Op.btConfigOf, Op.periodWithdrawalOf]
    · cases frequency <;> simp [Op.btConfigOf, Op.periodInvestmentOf]
    · rfl
    · intro x hx
      simp [Op.initBtState] at hx

/-- C9 witness: the theorem applied to the concrete two-point history, whose
anchor equity point carries 100 on both tracks. -/
theorem c9_witness :
    ({ time := 0, capitalWith := 100, capitalWithout := 100 } : Op.EquityPoint).capitalWith =
      ({ time := 0, capitalWith := 100, capitalWithout := 100 } : Op.EquityPoint).capitalWithout :=
  c9_zero_flows_equal_tracks (fun _ _ => 0) c9History
    { basePrice := 100, variations := [-1, 1], curveReturns := [-50, 50] } 100 .MONTHLY
    { time := 0, capitalWith := 100, capitalWithout := 100 }
    (by rw [runBacktest_equity_eq]
        exact List.Mem.head _)

/-- One step preserves the invariant `firstPeriod = rows.isEmpty`. -/
lemma btStep_firstPeriod_isEmpty (cfg : Op.BtConfig) (st : Op.BtState)
    (p : Op.HistoryPoint) (h : st.firstPeriod = st.rows.isEmpty) :
    (Op.btStep cfg st p).firstPeriod = (Op.btStep cfg st p).rows.isEmpty := by
  unfold Op.btStep
  dsimp only
  by_cases ho : (cfg.applyLosses = true ∧ st.lossBaseYear = none) <;>
    [simp only [if_pos ho]; simp only [if_neg ho]] <;>
    cases hp : p.returnPct <;> simp only [hp]
  case pos.none =>
    by_cases hfp : st.firstPeriod = true
    · simp [hfp]
    · simp only [Bool.not_eq_true] at hfp
      simp only [hfp, Bool.false_eq_true, if_false]
      rw [← hfp]
      exact h
  case pos.some =>
    simp
  case neg.none =>
    by_cases hfp : st.firstPeriod = true
    · simp [hfp]
    · simp only [Bool.not_eq_true] at hfp
      simp only [hfp, Bool.false_eq_true, if_false]
      rw [← hfp]
      exact h
  case neg.some =>
    simp

/-- The loop preserves `firstPeriod = rows.isEmpty`. -/
lemma btStepFold_firstPeriod_isEmpty (cfg : Op.BtConfig)
    (hist : List Op.HistoryPoint) :
    ∀ st : Op.BtState, st.firstPeriod = st.rows.isEmpty →
      (hist.foldl (Op.btStep cfg) st).firstPeriod =
        (hist.foldl (Op.btStep cfg) st).rows.isEmpty := by
  induction hist with
  | nil => exact fun st h => h
  | cons p rest ih =>
    intro st h
    rw [List.foldl_cons]
    exact ih _ (btStep_firstPeriod_isEmpty cfg st p h)

/-- C10: a history point whose return is undefined produces the zero-filled
anchor row exactly when no row has been emitted yet, and is otherwise skipped
entirely: (i) with a row already emitted (`firstPeriod = false`) the step
leaves rows, both chart series and both equity tracks untouched; (ii) with no
row emitted yet (`firstPeriod = true`) the step appends exactly one
zero-filled anchor row / chart point / equity point, clears `firstPeriod`,
and leaves the capitals unchanged; (iii) throughout any run, `firstPeriod`
holds exactly while `rows` is empty — so at most one anchor row can ever be
emitted. -/
theorem c10_single_placeholder_row :
    (∀ (cfg : Op.BtConfig) (st : Op.BtState) (p : Op.HistoryPoint),
        p.returnPct = none → st.firstPeriod = false →
        (Op.btStep cfg st p).rows = st.rows ∧
        (Op.btStep cfg st p).chartPoints = st.chartPoints ∧
        (Op.btStep cfg st p).equityPoints = st.equityPoints ∧
        (Op.btStep cfg st p).capitalWith = st.capitalWith ∧
        (Op.btStep cfg st p).capitalWithout = st.capitalWithout) ∧
    (∀ (cfg : Op.BtConfig) (st : Op.BtState) (p : Op.HistoryPoint),
        p.returnPct = none → st.firstPeriod = true →
        (Op.btStep cfg st p).rows = st.rows ++
          [{ time := p.time, assetReturn := 0, strategyReturn := 0, profit := 0,
             withdrawal := 0, investment := 0, capital := st.capitalWith,
             lossEvent := false }] ∧
        (Op.btStep cfg st p).chartPoints = st.chartPoints ++
          [{ time := p.time.timeMs, assetReturn := 0, strategyReturn := 0, size := 4 }] ∧
        (Op.btStep cfg st p).equityPoints = st.equityPoints ++
          [{ time := p.time.timeMs, capitalWith := st.capitalWith,
             capitalWithout := st.capitalWithout }] ∧
        (Op.btStep cfg st p).firstPeriod = false ∧
        (Op.btStep cfg st p).capitalWith = st.capitalWith ∧
        (Op.btStep cfg st p).capitalWithout = st.capitalWithout) ∧
    (∀ input : Op.BacktestInput,
        (Op.btFold input).firstPeriod = (Op.btFold input).rows.isEmpty) := by
  refine ⟨?_, ?_, ?_⟩
  · intro cfg st p hp hfp
    unfold Op.btStep
    dsimp only
    by_cases ho : (cfg.applyLosses = true ∧ st.lossBaseYear = none) <;>
      [simp only [if_pos ho]; simp only [if_neg ho]] <;>
      simp [hp, hfp]
  · intro cfg st p hp hfp
    unfold Op.btStep
    dsimp only
    by_cases ho : (cfg.applyLosses = true ∧ st.lossBaseYear = none) <;>
      [simp only [if_pos ho]; simp only [if_neg ho]] <;>
      simp [hp, hfp]
  · intro input
    exact btStepFold_firstPeriod_isEmpty _ _ _ rfl

/-- C10 witness: the skip clause applied to a concrete state that has
already emitted a row — the step changes nothing observable. -/
theorem c10_witness :
    (Op.btStep c10Cfg c10State c10Point).rows = c10State.rows ∧
      (Op.btStep c10Cfg c10State c10Point).capitalWith = c10State.capitalWith :=
  ⟨(c10_single_placeholder_row.1 c10Cfg c10State c10Point rfl rfl).1,
    (c10_single_placeholder_row.1 c10Cfg c10State c10Point rfl rfl).2.2.2.1⟩

/-- The rows of a run: empty under the degenerate-input guard, the loop's
rows otherwise. -/
lemma runBacktest_rows_eq (rpow : ℚ → ℚ → ℚ) (input : Op.BacktestInput) :
    (Op.runBacktest rpow input).rows =
      if input.history.length = 0 ∨ input.payoff.variations.length = 0 ∨
          Op.safeCapitalOf input ≤ 0 then []
      else (Op.btFold input).rows := by
  unfold Op.runBacktest
  dsimp only
  by_cases hg : (input.history.length = 0 ∨ input.payoff.variations.length = 0 ∨
      Op.safeCapitalOf input ≤ 0)
  · simp only [if_pos hg]
  · simp only [if_neg hg]

set_option maxHeartbeats 1600000 in
/-- Characterization of one real-return loop step's loss injection: with the
loss clock set to `(y0, m0)`, writing `m` for the 1-indexed months elapsed,
the emitted row's `lossEvent` is exactly the trigger condition, both equity
tracks are multiplied by the same haircut factor (after compounding the
period's return), and `m` is recorded in the triggered set exactly when the
trigger fired. -/
lemma btStep_loss_char (cfg : Op.BtConfig) (st : Op.BtState) (p : Op.HistoryPoint)
    (r : ℚ) (y0 m0 : ℤ) (hL : cfg.applyLosses = true)
    (hy : st.lossBaseYear = some y0) (hm0 : st.lossBaseMonth = some m0)
    (hr : p.returnPct = some r) :
    ((Op.btStep cfg st p).rows.getLast?.map fun row => row.lossEvent) =
        some (decide (lossTrigger st.lossMonths (Op.monthsElapsedFrom y0 m0 p.time))) ∧
      (Op.btStep cfg st p).capitalWithout =
        st.capitalWithout * (1 + strategyReturnPctOf cfg r) *
          lossHaircutFactor st.lossMonths (Op.monthsElapsedFrom y0 m0 p.time) ∧
      (Op.btStep cfg st p).capitalWith =
        st.capitalWith * (1 + strategyReturnPctOf cfg r) *
          lossHaircutFactor st.lossMonths (Op.monthsElapsedFrom y0 m0 p.time) -
          cfg.periodWithdrawal + cfg.periodInvestment ∧
      (∀ k : ℤ, k ∈ (Op.btStep cfg st p).lossMonths ↔
        k ∈ st.lossMonths ∨
          (lossTrigger st.lossMonths (Op.monthsElapsedFrom y0 m0 p.time) ∧
            k = Op.monthsElapsedFrom y0 m0 p.time)) := by
  unfold Op.btStep
  dsimp only
  simp only [hL, hy, hm0, hr, Option.some_ne_none, and_false, false_and, true_and,
    and_true, if_false]
  rw [show (p.time.year - y0) * 12 + (p.time.month + 1 - m0) + 1 =
      Op.monthsElapsedFrom y0 m0 p.time from rfl]
  set m := Op.monthsElapsedFrom y0 m0 p.time with hm
  by_cases h1 : (0 < m ∧ m ∉ st.lossMonths)
  · by_cases h2 : (0 < (if m % 6 = 0 then (2 : ℚ) / 100 else 0) +
        (if m % 10 = 0 then (9 : ℚ) / 100 else 0))
    · have h6or10 : m % 6 = 0 ∨ m % 10 = 0 := by
        by_contra hno
        push_neg at hno
        rw [if_neg hno.1, if_neg hno.2] at h2
        norm_num at h2
      have htrig : lossTrigger st.lossMonths m := ⟨h1.1, h1.2, h6or10⟩
      have h3 : (0 : ℚ) <
          ((if m % 6 = 0 then (2 : ℚ) / 100 else 0) +
            (if m % 10 = 0 then (9 : ℚ) / 100 else 0)) ⊓ (99 / 100) :=
        lt_min h2 (by norm_num)
      simp only [if_pos h1, if_pos h2]
      simp only [if_pos h3]
      refine ⟨?_, ?_, ?_, ?_⟩
      · rw [List.getLast?_concat]
        simp [htrig]
      · unfold lossHaircutFactor strategyReturnPctOf Op.lossPctAt
        rw [if_pos htrig]
      · unfold lossHaircutFactor strategyReturnPctOf Op.lossPctAt
        rw [if_pos htrig]
      · intro k
        simp only [List.mem_append, List.mem_singleton]
        simp [htrig]
    · have htrig : ¬lossTrigger st.lossMonths m := by
        rintro ⟨-, -, h6 | h10⟩
        · rw [if_pos h6] at h2
          have hx : (0 : ℚ) ≤ if m % 10 = 0 then (9 : ℚ) / 100 else 0 := by
            split <;> norm_num
          exact h2 (add_pos_of_pos_of_nonneg (by norm_num) hx)
        · rw [if_pos h10] at h2
          have hx : (0 : ℚ) ≤ if m % 6 = 0 then (2 : ℚ) / 100 else 0 := by
            split <;> norm_num
          exact h2 (add_pos_of_nonneg_of_pos hx (by norm_num))
      simp only [if_pos h1, if_neg h2]
      simp only [lt_irrefl, if_false]
      refine ⟨?_, ?_, ?_, ?_⟩
      · rw [List.getLast?_concat]
        simp [htrig]
      · unfold lossHaircutFactor strategyReturnPctOf
        rw [if_neg htrig, mul_one]
      · unfold lossHaircutFactor strategyReturnPctOf
        rw [if_neg htrig, mul_one]
      · intro k
        simp [htrig]
  · have htrig : ¬lossTrigger st.lossMonths m := by
      rintro ⟨ha, hb, -⟩
      exact h1 ⟨ha, hb⟩
    simp only [if_neg h1]
    simp only [lt_irrefl, if_false]
    refine ⟨?_, ?_, ?_, ?_⟩
    · rw [List.getLast?_concat]
      simp [htrig]
    · unfold lossHaircutFactor strategyReturnPctOf
      rw [if_neg htrig, mul_one]
    · unfold lossHaircutFactor strategyReturnPctOf
      rw [if_neg htrig, mul_one]
    · intro k
      simp [htrig]

set_option maxHeartbeats 1000000 in
/-- C3 counterexample: the loss-clock origin is established by the very
first history point, even though its return is undefined — not by the first
period with a defined return.  With a null-return point in January 2020 and
the first real period in June 2020, the code computes 6 elapsed months and
fires a loss event, while the claimed origin (June) would give month-count 1
and no haircut. -/
theorem c3_counterexample :
    ((Op.runBacktest (fun _ _ => 0) c3Input).rows.getD 1 c3DefaultRow).lossEvent = true ∧
      Op.specLossOrigin c3Input.history = some (2020, 6) ∧
      Op.lossPctAt (Op.monthsElapsedFrom 2020 6
        { year := 2020, month := 5, timeMs := 13132800000 }) = 0 := by
  refine ⟨?_, ?_, ?_⟩
  · have hguard : ¬(c3Input.history.length = 0 ∨ c3Input.payoff.variations.length = 0 ∨
        Op.safeCapitalOf c3Input ≤ 0) := by
      norm_num [c3Input, c3History, c3Payoff, Op.safeCapitalOf]
    rw [runBacktest_rows_eq, if_neg hguard]
    norm_num [Op.btFold, c3Input, c3History, c3Payoff, Op.btConfigOf, Op.safeCapitalOf,
      Op.periodWithdrawalOf, Op.periodInvestmentOf, Op.initBtState, Op.btStep,
      Op.linearInterpolate, Op.jsGetD, Option.some_ne_none, if_neg]
  · norm_num [Op.specLossOrigin, c3Input, c3History, List.find?]
  · norm_num [Op.lossPctAt, Op.monthsElapsedFrom]

/-- C3 (amended): synthetic loss injection behaves as claimed except for the
clock origin, which is established by the *first history point processed* —
whether or not its return is defined: (i) with losses enabled and no origin
yet, any point (defined return or not) sets the origin to its
`(getFullYear, getMonth + 1)`; (ii) once set, the origin never changes;
(iii) a real period at 1-indexed month-count `m` marks its row's `lossEvent`
exactly when `m > 0`, `m` has not yet triggered, and `m` is a multiple of 6
or 10; on a trigger both equity tracks are multiplied by
`1 − min((2% if 6 ∣ m) + (9% if 10 ∣ m), 99%)` after the period return, and
`m` is recorded so that (iv) the same clock-month never triggers twice. -/
theorem c3_loss_clock_characterization :
    (∀ (cfg : Op.BtConfig) (st : Op.BtState) (p : Op.HistoryPoint),
        cfg.applyLosses = true → st.lossBaseYear = none →
        (Op.btStep cfg st p).lossBaseYear = some p.time.year ∧
        (Op.btStep cfg st p).lossBaseMonth = some (p.time.month + 1)) ∧
    (∀ (cfg : Op.BtConfig) (st : Op.BtState) (p : Op.HistoryPoint) (y : ℤ),
        st.lossBaseYear = some y →
        (Op.btStep cfg st p).lossBaseYear = some y ∧
        (Op.btStep cfg st p).lossBaseMonth = st.lossBaseMonth) ∧
    (∀ (cfg : Op.BtConfig) (st : Op.BtState) (p : Op.HistoryPoint) (r : ℚ) (y0 m0 : ℤ),
        cfg.applyLosses = true → st.lossBaseYear = some y0 →
        st.lossBaseMonth = some m0 → p.returnPct = some r →
        ((Op.btStep cfg st p).rows.getLast?.map fun row => row.lossEvent) =
            some (decide (lossTrigger st.lossMonths (Op.monthsElapsedFrom y0 m0 p.time))) ∧
          (Op.btStep cfg st p).capitalWithout =
            st.capitalWithout * (1 + strategyReturnPctOf cfg r) *
              lossHaircutFactor st.lossMonths (Op.monthsElapsedFrom y0 m0 p.time) ∧
          (Op.btStep cfg st p).capitalWith =
            st.capitalWith * (1 + strategyReturnPctOf cfg r) *
              lossHaircutFactor st.lossMonths (Op.monthsElapsedFrom y0 m0 p.time) -
              cfg.periodWithdrawal + cfg.periodInvestment ∧
          (∀ k : ℤ, k ∈ (Op.btStep cfg st p).lossMonths ↔
            k ∈ st.lossMonths ∨
              (lossTrigger st.lossMonths (Op.monthsElapsedFrom y0 m0 p.time) ∧
                k = Op.monthsElapsedFrom y0 m0 p.time))) ∧
    (∀ (cfg : Op.BtConfig) (st : Op.BtState) (p : Op.HistoryPoint) (r : ℚ) (y0 m0 : ℤ),
        cfg.applyLosses = true → st.lossBaseYear = some y0 →
        st.lossBaseMonth = some m0 → p.returnPct = some r →
        Op.monthsElapsedFrom y0 m0 p.time ∈ st.lossMonths →
        ((Op.btStep cfg st p).rows.getLast?.map fun row => row.lossEvent) = some false) := by
  refine ⟨?_, ?_, ?_, ?_⟩
  · intro cfg st p hL hy
    unfold Op.btStep
    dsimp only
    simp only [hL, hy, and_self, if_true]
    cases hp : p.returnPct <;> simp only [hp]
    · by_cases hfp : st.firstPeriod = true <;> simp [hfp]
    · simp
  · intro cfg st p y hy
    unfold Op.btStep
    dsimp only
    simp only [hy, Option.some_ne_none, and_false, if_false]
    cases hp : p.returnPct <;> simp only [hp]
    · by_cases hfp : st.firstPeriod = true <;> simp [hfp, hy]
    · simp [hy]
  · intro cfg st p r y0 m0 hL hy hm0 hr
    exact btStep_loss_char cfg st p r y0 m0 hL hy hm0 hr
  · intro cfg st p r y0 m0 hL hy hm0 hr hmem
    obtain ⟨h1, -, -, -⟩ := btStep_loss_char cfg st p r y0 m0 hL hy hm0 hr
    rw [h1]
    simp [lossTrigger, hmem]

/-- C3 witness: the origin clause applied to the fresh state and the
undefined-return January 2020 point — the clock is set from it. -/
theorem c3_witness :
    (Op.btStep c3Cfg (Op.initBtState 100) c3P0).lossBaseYear = some 2020 ∧
      (Op.btStep c3Cfg (Op.initBtState 100) c3P0).lossBaseMonth = some 1 :=
  c3_loss_clock_characterization.1 c3Cfg (Op.initBtState 100) c3P0 rfl rfl
